import Mathlib

/-!
Shallow embedding of `smartcontractkit/ethblockcomparer` (Go).

The repository compares the latest block heights reported by two Ethereum
JSON-RPC endpoints and serves a `/heights` health endpoint.  The core lives
in `main.go` (threshold supplied as a `uint` CLI flag) and a historical
revision (here `part_003`, threshold supplied as a string parsed with
`strconv.ParseUint(s, 10, 32)` and stored as a `*big.Int`).

Modelling choices:
* Go `*big.Int` values (block heights, differences, big thresholds) are `Int`.
* `rpc.Dial` and `client.Call` perform network I/O; their outcomes are passed
  in as explicit parameters (`Option String` dial errors, `Except String Block`
  fetch results), mirroring how the repository's own tests substitute mock
  clients for the network.
* `multierr.Combine` from `go.uber.org/multierr` drops `nil` errors and joins
  the remaining error texts with `"; "` (a single error is returned as-is,
  which coincides with joining a one-element list).
* Go strings are Lean `String`s; `strings.HasPrefix` is byte-wise prefix,
  modelled as character-list prefix (all addresses involved are ASCII).
-/

namespace EthBlockComparer

/-- Go `type block struct { Number hexutil.Big }`: the decoded block, whose
`Number` field is an arbitrary-precision integer. -/
structure Block where
  number : Int
deriving Repr, DecidableEq

/-- Go `strings.HasPrefix(s, pre)`: true iff `pre` is a prefix of `s`. -/
def hasPrefix (s pre : String) : Bool :=
  List.isPrefixOf pre.data s.data

/-- `normalizeLocalhost` from `main.go` / `part_003`: rewrite an endpoint that
starts with `localhost` to an explicit `http://` URL, leave others alone. -/
def normalizeLocalhost (endpoint : String) : String :=
  if hasPrefix endpoint "localhost" then "http://" ++ endpoint else endpoint

/-- `calculateDifference` from `main.go`:
`difference.Abs(difference.Sub(latest1.Number.ToInt(), latest2.Number.ToInt()))`.
`big.Int.Abs` of the exact difference, so the value is the absolute difference. -/
def calculateDifference (latest1 latest2 : Block) : Int :=
  ((latest1.number - latest2.number).natAbs : Int)

/-- `statusCodeForDifference` from `main.go`: `threshold` is a Go `uint`;
`bigThresh.Cmp(difference) == -1` means `threshold < difference`, giving 500,
otherwise 200. -/
def statusCodeForDifference (threshold : Nat) (difference : Int) : Nat :=
  if (threshold : Int) < difference then 500 else 200

/-- `statusCodeForDifference` from `part_003`: both arguments are `*big.Int`;
`threshold.Cmp(difference) == -1` means `threshold < difference`. -/
def bigStatusCodeForDifference (threshold difference : Int) : Nat :=
  if threshold < difference then 500 else 200

/-- `multierr.Combine`: `nil` errors are skipped; no remaining error yields
`nil`; otherwise the combined error, whose `Error()` text joins the
constituent error texts with `"; "`. -/
def combineErrors (errs : List (Option String)) : Option String :=
  match errs.filterMap id with
  | [] => none
  | es => some (String.intercalate "; " es)

/-- Value of a decimal digit character, `none` for any other character
(as in `strconv.ParseUint` with base 10: any non-digit is a syntax error). -/
def decDigit (c : Char) : Option Nat :=
  if '0' ≤ c ∧ c ≤ '9' then some (c.toNat - '0'.toNat) else none

/-- Accumulating loop of `strconv.ParseUint` over the remaining characters. -/
def parseDecDigitsAux : List Char → Nat → Option Nat
  | [], n => some n
  | c :: cs, n =>
    match decDigit c with
    | some d => parseDecDigitsAux cs (10 * n + d)
    | none => none

/-- The digits-only part of `strconv.ParseUint` base 10: `some n` iff the
character list is a nonempty string of decimal digits with value `n`. -/
def parseDecDigits : List Char → Option Nat
  | [] => none
  | cs => parseDecDigitsAux cs 0

/-- `1<<32 - 1`, the `maxVal` of `strconv.ParseUint(s, 10, 32)`. -/
def maxUint32 : Nat := 4294967295

/-- `strconv.ParseUint(s, 10, 32)`: returns the pair (value, error).  A
non-digit character (including any sign) or the empty string is a syntax
error with value 0; a value above `1<<32 - 1` is a range error with value
`maxVal`; otherwise the parsed value with no error. -/
def parseUint10of32 (s : String) : Nat × Option String :=
  match parseDecDigits s.data with
  | none => (0, some ("strconv.ParseUint: parsing \"" ++ s ++ "\": invalid syntax"))
  | some n =>
    if n ≤ maxUint32 then (n, none)
    else (maxUint32, some ("strconv.ParseUint: parsing \"" ++ s ++ "\": value out of range"))

/-- Go `clientImpl`: the embedded `*rpc.Client` was dialed at
`normalizeLocalhost(endpoint)` (recorded as `dialAddr`), while the stored
`endpoint` field is the original address string. -/
structure ClientImpl where
  dialAddr : String
  endpoint : String
deriving Repr, DecidableEq

/-- `func (c *clientImpl) Endpoint() string { return c.endpoint }`. -/
def ClientImpl.Endpoint (c : ClientImpl) : String := c.endpoint

/-- The client assembled inside `newHeightsController`:
`&clientImpl{Client: rpc.Dial(normalizeLocalhost(endpoint)), endpoint: endpoint}`. -/
def mkClientImpl (endpoint : String) : ClientImpl :=
  { dialAddr := normalizeLocalhost endpoint, endpoint := endpoint }

/-- Go `heightsController`.  `threshold` is the `uint` of `main.go`; the
`part_003` revision stores `big.NewInt(int64(threshold))` of the same
non-negative 32-bit value, so one `Nat` field models both faithfully. -/
structure HeightsController where
  threshold : Nat
  client1 : ClientImpl
  client2 : ClientImpl
deriving Repr, DecidableEq

/-- `newHeightsController` from `part_003`: parse the threshold text with
`strconv.ParseUint(thresholdStr, 10, 32)`, dial both (normalized) endpoints,
combine the three errors with `multierr.Combine(errd, err1, err2)`; fail with
the combined error if any step failed, otherwise build the controller.  The
two dial outcomes are parameters (`none` = dial succeeded). -/
def newHeightsController (endpoint1 endpoint2 thresholdStr : String)
    (dialErr1 dialErr2 : Option String) : Except String HeightsController :=
  let p := parseUint10of32 thresholdStr
  match combineErrors [p.2, dialErr1, dialErr2] with
  | some merr => .error merr
  | none => .ok ⟨p.1, mkClientImpl endpoint1, mkClientImpl endpoint2⟩

/-- The JSON body built by `heightsController.generateResponse`: decimal
string forms of difference and threshold, plus `(url, raw reported number)`
per endpoint. -/
structure RespBody where
  difference : String
  threshold : String
  endpoints : List (String × Int)
deriving Repr, DecidableEq

/-- The outcome of one `Index` invocation: either the gateway-error path
(`c.AbortWithError(502, merr)` in `main.go`, `c.JSON(502, gin.H{"error":
merr.Error()})` in `part_003` — both status 502 carrying the combined error
text) or a JSON response with a status code and body. -/
inductive Response where
  | gatewayError (status : Nat) (errText : String)
  | json (status : Nat) (body : RespBody)
deriving Repr, DecidableEq

/-- The error component of one `client.Call` outcome (`nil` on success). -/
def errOf : Except String Block → Option String
  | .ok _ => none
  | .error e => some e

/-- The `block` left in the `var latest block` variable by one `client.Call`:
the decoded block on success, the zero value if the call errored. -/
def blockOf : Except String Block → Block
  | .ok b => b
  | .error _ => ⟨0⟩

/-- `heightsController.generateResponse` from `main.go`: `difference.String()`,
`fmt.Sprint(hc.threshold)`, and the two `{url, number}` entries built from
`Endpoint()` and the raw reported numbers. -/
def generateResponse (hc : HeightsController) (latest1 latest2 : Block)
    (difference : Int) : RespBody :=
  { difference := toString difference
    threshold := toString hc.threshold
    endpoints := [(hc.client1.Endpoint, latest1.number),
                  (hc.client2.Endpoint, latest2.number)] }

/-- `heightsController.Index`: fetch from both clients (outcomes are the
`fetch1`, `fetch2` parameters), combine the two errors; on any error respond
502 with the combined text, otherwise compute the difference, classify it
against the threshold and respond with the generated body. -/
def Index (hc : HeightsController) (fetch1 fetch2 : Except String Block) :
    Response :=
  match combineErrors [errOf fetch1, errOf fetch2] with
  | some merr => .gatewayError 502 merr
  | none =>
    let latest1 := blockOf fetch1
    let latest2 := blockOf fetch2
    let difference := calculateDifference latest1 latest2
    .json (statusCodeForDifference hc.threshold difference)
      (generateResponse hc latest1 latest2 difference)

/-- `Index` as a state transformer on the controller: the Go method body
assigns to no field of `hc` (it only reads `threshold`, `client1`, `client2`),
so the post-state is the unchanged controller. -/
def IndexStep (hc : HeightsController) (fetch1 fetch2 : Except String Block) :
    HeightsController × Response :=
  (hc, Index hc fetch1 fetch2)

/-- Value of a hexadecimal digit character, `none` otherwise. -/
def hexDigitVal (c : Char) : Option Nat :=
  if '0' ≤ c ∧ c ≤ '9' then some (c.toNat - '0'.toNat)
  else if 'a' ≤ c ∧ c ≤ 'f' then some (c.toNat - 'a'.toNat + 10)
  else if 'A' ≤ c ∧ c ≤ 'F' then some (c.toNat - 'A'.toNat + 10)
  else none

/-- Accumulating loop over hex digits. -/
def parseHexDigitsAux : List Char → Nat → Option Nat
  | [], n => some n
  | c :: cs, n =>
    match hexDigitVal c with
    | some d => parseHexDigitsAux cs (16 * n + d)
    | none => none

/-- `hexutil.Big` unmarshalling of the `number` field: requires a `0x`/`0X`
prefix, at least one hex digit, no leading zero (except `0x0` itself), and at
most 64 hex digits (256 bits); decodes to the arbitrary-precision value. -/
def decodeHexBig (s : String) : Option Int :=
  match s.data with
  | '0' :: 'x' :: rest =>
    match rest with
    | [] => none
    | '0' :: _ :: _ => none
    | ds => if ds.length ≤ 64 then (parseHexDigitsAux ds 0).map Int.ofNat else none
  | '0' :: 'X' :: rest =>
    match rest with
    | [] => none
    | '0' :: _ :: _ => none
    | ds => if ds.length ≤ 64 then (parseHexDigitsAux ds 0).map Int.ofNat else none
  | _ => none

end EthBlockComparer

namespace EthBlockComparer

/-- `hasPrefix s pre` holds exactly when `s` literally extends `pre`:
the boolean prefix test agrees with the existential characterization. -/
theorem hasPrefix_iff (s pre : String) :
    hasPrefix s pre = true ↔ ∃ rest, s = pre ++ rest := by
  unfold hasPrefix
  rw [ List.isPrefixOf_iff_prefix]
  constructor
  · rintro ⟨t, ht⟩
    refine ⟨⟨t⟩, ?_⟩
    apply String.ext
    simpa using ht.symm
  · rintro ⟨rest, hrest⟩
    exact ⟨rest.data, by simp [hrest]⟩

/-- C1: for every threshold and every pair of fetched block heights, the
classification of `difference = |height1 - height2|` is boundary-inclusive:
`statusCodeForDifference` returns 200 iff `difference ≤ threshold` (so the
exact boundary `difference = threshold` is healthy) and returns 500 iff
`difference > threshold`; the `part_003` big-integer variant agrees. -/
theorem c1_status_boundary_inclusive (threshold : Nat) (b1 b2 : Block) :
    (statusCodeForDifference threshold (calculateDifference b1 b2) = 200 ↔
      calculateDifference b1 b2 ≤ (threshold : Int)) ∧
    (statusCodeForDifference threshold (calculateDifference b1 b2) = 500 ↔
      (threshold : Int) < calculateDifference b1 b2) ∧
    bigStatusCodeForDifference (threshold : Int) (calculateDifference b1 b2) =
      statusCodeForDifference threshold (calculateDifference b1 b2) := by
  unfold statusCodeForDifference bigStatusCodeForDifference
  split_ifs with h <;> simp <;> omega

/-- C1 witness: threshold 2 with heights 3 and 1 sits exactly on the boundary
(difference 2) and classifies 200; heights 4 and 1 (difference 3) classify 500. -/
theorem c1_status_boundary_inclusive_witness :
    statusCodeForDifference 2 (calculateDifference ⟨3⟩ ⟨1⟩) = 200 ∧
    statusCodeForDifference 2 (calculateDifference ⟨4⟩ ⟨1⟩) = 500 :=
  ⟨(c1_status_boundary_inclusive 2 ⟨3⟩ ⟨1⟩).1.2 (by decide),
   (c1_status_boundary_inclusive 2 ⟨4⟩ ⟨1⟩).2.1.2 (by decide)⟩

/-- C2: if either client's height fetch errors, `Index` responds 502 carrying
the combined text of whichever of the two errors occurred, and never produces
a JSON comparison response (so no 200/500 classification and no partial
result), regardless of the other client's outcome. -/
theorem c2_upstream_error_502 (hc : HeightsController)
    (f1 f2 : Except String Block)
    (h : errOf f1 ≠ none ∨ errOf f2 ≠ none) :
    Index hc f1 f2 = Response.gatewayError 502
        (String.intercalate "; " (List.filterMap id [errOf f1, errOf f2])) ∧
    ∀ s b, Index hc f1 f2 ≠ Response.json s b := by
  cases f1 <;> cases f2 <;>
    simp [Index, errOf, combineErrors] at h ⊢

/-- C2 witness: client 1 failing with `errorClient` while client 2 succeeds
yields exactly a 502 carrying `errorClient` and no JSON response. -/
theorem c2_upstream_error_502_witness :
    Index ⟨2, mkClientImpl "http://a", mkClientImpl "http://b"⟩
        (Except.error "errorClient") (Except.ok ⟨5⟩) =
      Response.gatewayError 502 "errorClient" ∧
    ∀ s b, Index ⟨2, mkClientImpl "http://a", mkClientImpl "http://b"⟩
        (Except.error "errorClient") (Except.ok ⟨5⟩) ≠ Response.json s b := by
  have h := c2_upstream_error_502 ⟨2, mkClientImpl "http://a", mkClientImpl "http://b"⟩
      (Except.error "errorClient") (Except.ok ⟨5⟩) (Or.inl (by simp [errOf]))
  exact ⟨h.1, h.2⟩

/-- C3: whenever the threshold text is not a nonempty string of decimal digits
(so: empty, non-numeric like `ninja`, or negative like `-2` — the sign is not a
digit), `newHeightsController` fails with an error and returns no controller,
whatever the two dial outcomes (in particular when both endpoints are valid). -/
theorem c3_invalid_threshold_fails (e1 e2 s : String) (d1 d2 : Option String)
    (h : parseDecDigits s.data = none) :
    ∃ err, newHeightsController e1 e2 s d1 d2 = Except.error err := by
  simp [newHeightsController, parseUint10of32, h, combineErrors]

/-- C3 witness: the negative threshold text `-2` is rejected even with two
successfully dialed endpoints. -/
theorem c3_invalid_threshold_fails_witness :
    parseDecDigits ("-2".data) = none ∧
    (∃ err, newHeightsController "http://a" "http://b" "-2" none none =
      Except.error err) :=
  ⟨by decide, c3_invalid_threshold_fails "http://a" "http://b" "-2" none none (by decide)⟩

/-- C4: construction succeeds — yielding the parsed threshold and both
clients — exactly when the threshold parse and both dials all succeed; on any
failure the error report is the `"; "`-join of every error that occurred
(threshold parse error, endpoint-1 dial error, endpoint-2 dial error), not
just the first one. -/
theorem c4_errors_combined_success_iff (e1 e2 s : String) (d1 d2 : Option String) :
    (((parseUint10of32 s).2 = none ∧ d1 = none ∧ d2 = none) →
      newHeightsController e1 e2 s d1 d2 =
        Except.ok ⟨(parseUint10of32 s).1, mkClientImpl e1, mkClientImpl e2⟩) ∧
    (((parseUint10of32 s).2 ≠ none ∨ d1 ≠ none ∨ d2 ≠ none) →
      newHeightsController e1 e2 s d1 d2 =
        Except.error (String.intercalate "; "
          (List.filterMap id [(parseUint10of32 s).2, d1, d2]))) := by
  rcases hp : (parseUint10of32 s).2 with _ | e <;> cases d1 <;> cases d2 <;>
    simp [newHeightsController, combineErrors, hp]

/-- C4 witness: valid threshold `7` with two good dials constructs the
controller; invalid threshold `ninja` together with a failing first dial
reports both errors combined into one message. -/
theorem c4_errors_combined_success_iff_witness :
    newHeightsController "http://a" "http://b" "7" none none =
      Except.ok ⟨7, mkClientImpl "http://a", mkClientImpl "http://b"⟩ ∧
    newHeightsController "u" "v" "ninja" (some "dial error one") none =
      Except.error "strconv.ParseUint: parsing \"ninja\": invalid syntax; dial error one" :=
  ⟨(c4_errors_combined_success_iff "http://a" "http://b" "7" none none).1 ⟨rfl, rfl, rfl⟩,
   (c4_errors_combined_success_iff "u" "v" "ninja" (some "dial error one") none).2
     (Or.inl (by decide))⟩

/-- C5: `calculateDifference` is symmetric in its two blocks — the absolute
difference of the two reported heights does not depend on their order. -/
theorem c5_difference_symm (b1 b2 : Block) :
    calculateDifference b1 b2 = calculateDifference b2 b1 := by
  unfold calculateDifference
  congr 1
  omega

/-- C6 counterexample: `4294967296 = 2^32` is a non-negative base-10 integer
string, yet construction with two valid endpoints fails with the
`strconv.ParseUint` range error — the threshold is parsed with a 32-bit bound
(`strconv.ParseUint(s, 10, 32)` in `part_003`), not as an arbitrary-precision
integer as the claim states. -/
theorem c6_threshold_32bit_cex :
    parseDecDigits ("4294967296".data) = some 4294967296 ∧
    newHeightsController "http://a" "http://b" "4294967296" none none =
      Except.error "strconv.ParseUint: parsing \"4294967296\": value out of range" :=
  ⟨by decide, by rfl⟩

/-- C6 amended: given two valid endpoints, construction succeeds and stores
the exact value for every non-negative base-10 integer string whose value is
at most `2^32 - 1`, and fails with a range error for every larger value — the
threshold is a bounded 32-bit non-negative integer, not arbitrary-precision. -/
theorem c6_threshold_32bit_bound (e1 e2 s : String) (n : Nat)
    (h : parseDecDigits s.data = some n) :
    (n ≤ maxUint32 →
      newHeightsController e1 e2 s none none =
        Except.ok ⟨n, mkClientImpl e1, mkClientImpl e2⟩) ∧
    (maxUint32 < n →
      newHeightsController e1 e2 s none none =
        Except.error ("strconv.ParseUint: parsing \"" ++ s ++ "\": value out of range")) := by
  constructor <;> intro hn
  · simp [newHeightsController, parseUint10of32, h, combineErrors, if_pos hn]
  · have hn2 : ¬ n ≤ maxUint32 := by omega
    simp [newHeightsController, parseUint10of32, h, combineErrors, if_neg hn2]
    rfl

/-- C6 amended witness: threshold `7` is stored exactly; threshold
`4294967296` fails with the range error. -/
theorem c6_threshold_32bit_bound_witness :
    (parseDecDigits ("7".data) = some 7 ∧ 7 ≤ maxUint32 ∧
      newHeightsController "http://a" "http://b" "7" none none =
        Except.ok ⟨7, mkClientImpl "http://a", mkClientImpl "http://b"⟩) ∧
    (parseDecDigits ("4294967296".data) = some 4294967296 ∧ maxUint32 < 4294967296 ∧
      newHeightsController "u" "v" "4294967296" none none =
        Except.error "strconv.ParseUint: parsing \"4294967296\": value out of range") :=
  ⟨⟨by decide, by decide,
      (c6_threshold_32bit_bound "http://a" "http://b" "7" 7 (by decide)).1 (by decide)⟩,
   ⟨by decide, by decide,
      (c6_threshold_32bit_bound "u" "v" "4294967296" 4294967296 (by decide)).2 (by decide)⟩⟩

/-- C7: `normalizeLocalhost` maps every string that literally extends
`localhost` to the same string with `http://` prepended, and is the identity
on every string that does not start with `localhost`. -/
theorem c7_normalize_localhost (s : String) :
    ((∃ rest, s = "localhost" ++ rest) → normalizeLocalhost s = "http://" ++ s) ∧
    ((¬ ∃ rest, s = "localhost" ++ rest) → normalizeLocalhost s = s) := by
  constructor <;> intro h
  · unfold normalizeLocalhost
    rw [if_pos ((hasPrefix_iff s "localhost").2 h)]
  · unfold normalizeLocalhost
    rw [if_neg (fun hb => h ((hasPrefix_iff s "localhost").1 hb))]

/-- C7 witness: `localhost:1234` is rewritten to `http://localhost:1234`;
`https://example.com` is returned unchanged. -/
theorem c7_normalize_localhost_witness :
    (∃ rest, "localhost:1234" = "localhost" ++ rest) ∧
    normalizeLocalhost "localhost:1234" = "http://" ++ "localhost:1234" ∧
    (¬ ∃ rest, "https://example.com" = "localhost" ++ rest) ∧
    normalizeLocalhost "https://example.com" = "https://example.com" := by
  have h1 : (∃ rest, "localhost:1234" = "localhost" ++ rest) := ⟨":1234", rfl⟩
  have h2 : ¬ ∃ rest, "https://example.com" = "localhost" ++ rest := by
    rintro ⟨rest, hr⟩
    have hd := congrArg String.data hr
    simp at hd
  exact ⟨h1, (c7_normalize_localhost "localhost:1234").1 h1, h2,
    (c7_normalize_localhost "https://example.com").2 h2⟩

/-- C8: with reported heights `0x1` and `0x2` (which decode to 1 and 2) and
threshold 2, `Index` responds 200 with difference `"1"`, threshold `"2"`, and
both endpoints' URLs alongside the raw reported heights. -/
theorem c8_scenario_heights_0x1_0x2 (u1 u2 : String) :
    decodeHexBig "0x1" = some 1 ∧ decodeHexBig "0x2" = some 2 ∧
    Index ⟨2, mkClientImpl u1, mkClientImpl u2⟩ (Except.ok ⟨1⟩) (Except.ok ⟨2⟩) =
      Response.json 200 ⟨"1", "2", [(u1, 1), (u2, 2)]⟩ := by
  refine ⟨by decide, by decide, ?_⟩
  simp [Index, combineErrors, errOf, blockOf, calculateDifference, generateResponse,
    statusCodeForDifference, mkClientImpl, ClientImpl.Endpoint]
  exact ⟨rfl, rfl⟩

/-- C9: `Index` is a stateless, idempotent read: each invocation leaves the
controller — threshold and both client handles — unchanged, and re-invoking
on the post-state with the same fetched heights yields the same response. -/
theorem c9_stateless_idempotent (hc : HeightsController)
    (f1 f2 : Except String Block) :
    (IndexStep hc f1 f2).1 = hc ∧
    (IndexStep hc f1 f2).1.threshold = hc.threshold ∧
    (IndexStep hc f1 f2).1.client1 = hc.client1 ∧
    (IndexStep hc f1 f2).1.client2 = hc.client2 ∧
    (IndexStep (IndexStep hc f1 f2).1 f1 f2).2 = (IndexStep hc f1 f2).2 :=
  ⟨rfl, rfl, rfl, rfl, rfl⟩

/-- C10: every successfully constructed controller stores the exact original
address in each client, so `Endpoint()` returns it verbatim, while the dialed
address is the normalized form — in particular a `localhost`-prefixed address
is dialed as `http://` plus the address yet `Endpoint()` stays bare. -/
theorem c10_endpoint_returns_original (e1 e2 s : String) (d1 d2 : Option String)
    (hc : HeightsController)
    (h : newHeightsController e1 e2 s d1 d2 = Except.ok hc) :
    hc.client1.Endpoint = e1 ∧ hc.client2.Endpoint = e2 ∧
    hc.client1.dialAddr = normalizeLocalhost e1 ∧
    hc.client2.dialAddr = normalizeLocalhost e2 ∧
    (hasPrefix e1 "localhost" = true → hc.client1.dialAddr = "http://" ++ e1) ∧
    (hasPrefix e2 "localhost" = true → hc.client2.dialAddr = "http://" ++ e2) := by
  simp only [newHeightsController] at h
  split at h
  · simp at h
  · obtain rfl := Except.ok.inj h
    refine ⟨rfl, rfl, rfl, rfl, fun hp => ?_, fun hp => ?_⟩
    · simp [mkClientImpl, normalizeLocalhost, hp]
    · simp [mkClientImpl, normalizeLocalhost, hp]

/-- C10 witness: constructing from `localhost:1234` dials
`http://localhost:1234` but `Endpoint()` returns the bare `localhost:1234`. -/
theorem c10_endpoint_returns_original_witness :
    ((⟨2, ⟨"http://localhost:1234", "localhost:1234"⟩, ⟨"http://b", "http://b"⟩⟩ :
        HeightsController).client1.Endpoint = "localhost:1234") ∧
    ((⟨2, ⟨"http://localhost:1234", "localhost:1234"⟩, ⟨"http://b", "http://b"⟩⟩ :
        HeightsController).client1.dialAddr = "http://" ++ "localhost:1234") := by
  have h := c10_endpoint_returns_original "localhost:1234" "http://b" "2" none none
      ⟨2, ⟨"http://localhost:1234", "localhost:1234"⟩, ⟨"http://b", "http://b"⟩⟩ rfl
  exact ⟨h.1, h.2.2.2.2.1 (by decide)⟩

end EthBlockComparer
